import Mathlib

/-!
# GammaWhisper bubble widget: the two view-state scripts

A shallow embedding of `src/app/static/app.js` (the reduced variant, namespace
`App`) and `src/flask_gui/static/app.js` (the full-featured variant, namespace
`FlaskGui`).

The scripts only touch three elements of the hosting page: the element with id
`status`, the first element with class `waveform` (together with its descendant
`div` elements) and the element with id `bubble`.  The page is modelled by these
three elements, assumed to be three different elements none of which contains
another; each of them may be missing, in which case the lookup yields `null` and
the first property access on it throws a `TypeError`.

The scripts reach `#status` (both files) and `#bubble` (full-featured file) through
a `const` filled once when the script loads, and `.waveform` (and `#bubble` in the
reduced file) through a lookup made at each use.  A `Document` is the page as the
running script reaches it; `Runtime` keeps the two kinds of access apart for pages
that gain elements after the script has loaded.
-/

namespace GammaWhisper

/-! ## JavaScript values carried by a message event -/

/-- The values `event.data` may hold.  An object is given by its readable
properties. -/
inductive JSValue where
  | undefined
  | null
  | boolean (b : Bool)
  | number (n : Int)
  | nan
  | string (s : String)
  | object (props : List (String × JSValue))

/-- How a statement ends: normally, or by throwing a `TypeError` (inside the
`async` listener this is the rejection of the promise it returns). -/
inductive Completion where
  | normal
  | typeError
deriving DecidableEq, Repr

/-- JavaScript `ToBoolean`. -/
def JSValue.truthy : JSValue → Bool
  | .undefined => false
  | .null => false
  | .boolean b => b
  | .number n => n != 0
  | .nan => false
  | .string s => s != ""
  | .object _ => true

/-- The expression `a || b`. -/
def JSValue.or (a b : JSValue) : JSValue :=
  if a.truthy then a else b

/-- Reading the property named `type` of a value, as the destructuring pattern
`const { type } = v` does: `null` and `undefined` throw, a primitive has no such
property, an object yields the property or `undefined`. -/
def JSValue.readType : JSValue → Except Completion JSValue
  | .undefined => .error .typeError
  | .null => .error .typeError
  | .object props => .ok ((props.lookup "type").getD .undefined)
  | _ => .ok .undefined

/-- The comparison `v === s` against a string literal `s`. -/
def JSValue.strictEqString : JSValue → String → Bool
  | .string t, s => t == s
  | _, _ => false

/-- The statement `const { type } = event.data || {};`. -/
def messageType (data : JSValue) : Except Completion JSValue :=
  (data.or (.object [])).readType

/-! ## The page -/

/-- The `.waveform` element: its class tokens, its inline `style.opacity`, and the
inline `style.animation` of each descendant `div`, in document order. -/
structure Waveform where
  classList : List String
  opacity : String
  divs : List String
deriving DecidableEq, Repr

/-- The part of the document the scripts read and write: `textContent` of
`#status`, the `.waveform` element, and the class tokens of `#bubble`.  `none`
means that the script's handle for the element (the cached `const`, or the lookup
made at the point of use) is `null`. -/
structure Document where
  status : Option String
  waveform : Option Waveform
  bubble : Option (List String)
deriving DecidableEq, Repr

/-- A statement: it ends with a completion and leaves a document behind, also when
it throws. -/
abbrev Stmt := Document → Completion × Document

/-- A statement list, run in order until one throws. -/
def block : List Stmt → Stmt
  | [], d => (.normal, d)
  | s :: rest, d =>
    match s d with
    | (.normal, d1) => block rest d1
    | (.typeError, d1) => (.typeError, d1)

/-- One token added by `DOMTokenList.add`: appended unless already present. -/
def tokenAdd (l : List String) (t : String) : List String :=
  if t ∈ l then l else l ++ [t]

/-- One token removed by `DOMTokenList.remove`. -/
def tokenRemove (l : List String) (t : String) : List String :=
  l.filter (fun c => c ≠ t)

/-- The call `classList.add(t1, t2, ...)`. -/
def classListAdd (tokens : List String) (l : List String) : List String :=
  tokens.foldl tokenAdd l

/-- The call `classList.remove(t1, t2, ...)`. -/
def classListRemove (tokens : List String) (l : List String) : List String :=
  tokens.foldl tokenRemove l

/-- The assignment `status.textContent = text`. -/
def statusSetTextContent (text : String) : Stmt := fun d =>
  match d.status with
  | none => (.typeError, d)
  | some _ => (.normal, { d with status := some text })

/-- A write through `wf = document.querySelector(".waveform")`. -/
def waveformUpdate (f : Waveform → Waveform) : Stmt := fun d =>
  match d.waveform with
  | none => (.typeError, d)
  | some w => (.normal, { d with waveform := some (f w) })

/-- A write to the class tokens of `#bubble`. -/
def bubbleUpdate (f : List String → List String) : Stmt := fun d =>
  match d.bubble with
  | none => (.typeError, d)
  | some cl => (.normal, { d with bubble := some (f cl) })

/-- The call `wf.classList.add(...)`. -/
def wfClassListAdd (tokens : List String) : Stmt :=
  waveformUpdate (fun w => { w with classList := classListAdd tokens w.classList })

/-- The call `wf.classList.remove(...)`. -/
def wfClassListRemove (tokens : List String) : Stmt :=
  waveformUpdate (fun w => { w with classList := classListRemove tokens w.classList })

/-- The assignment `wf.style.opacity = v`. -/
def wfSetOpacity (v : String) : Stmt :=
  waveformUpdate (fun w => { w with opacity := v })

/-- The loop `wf.querySelectorAll("div").forEach(div => div.style.animation = v)`. -/
def wfSetAnimation (v : String) : Stmt :=
  waveformUpdate (fun w => { w with divs := w.divs.map (fun _ => v) })

/-- The call `bubble.classList.add(...)`. -/
def bubbleClassListAdd (tokens : List String) : Stmt :=
  bubbleUpdate (classListAdd tokens)

/-- The call `bubble.classList.remove(...)`. -/
def bubbleClassListRemove (tokens : List String) : Stmt :=
  bubbleUpdate (classListRemove tokens)

/-! ## `src/app/static/app.js` (reduced variant) -/

namespace App

/-- The function `setStatus(text)`. -/
def setStatus (text : String) : Stmt :=
  statusSetTextContent text

/-- The function `startWaveform()`. -/
def startWaveform : Stmt :=
  block [wfClassListRemove ["hidden"],
         wfSetOpacity "1",
         wfSetAnimation "pulse 1s infinite ease-in-out"]

/-- The function `stopWaveform()`. -/
def stopWaveform : Stmt :=
  block [wfClassListAdd ["hidden"],
         wfSetAnimation "none"]

/-- The function `resetBubble()`. -/
def resetBubble : Stmt :=
  block [wfClassListAdd ["hidden"],
         wfSetOpacity "1",
         wfSetAnimation "none",
         statusSetTextContent "",
         bubbleClassListRemove ["show"]]

/-- The `message` listener, applied to `event.data`. -/
def messageListener (data : JSValue) : Stmt := fun d =>
  match messageType data with
  | .error c => (c, d)
  | .ok ty =>
    if ty.strictEqString "transcribing" then
      block [setStatus "Transcribing…", stopWaveform] d
    else if ty.strictEqString "reset" then
      resetBubble d
    else
      (.normal, d)

end App

/-! ## `src/flask_gui/static/app.js` (full-featured variant) -/

namespace FlaskGui

/-- The function `setStatus(text)`. -/
def setStatus (text : String) : Stmt :=
  statusSetTextContent text

/-- The function `startWaveform()`. -/
def startWaveform : Stmt :=
  block [wfClassListRemove ["hidden"],
         wfSetOpacity "1",
         wfSetAnimation "pulse 1s infinite ease-in-out",
         bubbleClassListAdd ["show", "listening"],
         bubbleClassListRemove ["transcribing"],
         setStatus "Listening…"]

/-- The function `stopWaveform()`. -/
def stopWaveform : Stmt :=
  block [wfClassListAdd ["hidden"],
         wfSetAnimation "none",
         bubbleClassListRemove ["listening"]]

/-- The function `resetBubble()`. -/
def resetBubble : Stmt :=
  block [wfClassListAdd ["hidden"],
         wfSetOpacity "1",
         wfSetAnimation "none",
         statusSetTextContent "",
         bubbleClassListRemove ["show", "listening", "transcribing"]]

/-- The `message` listener, applied to `event.data`. -/
def messageListener (data : JSValue) : Stmt := fun d =>
  match messageType data with
  | .error c => (c, d)
  | .ok ty =>
    if ty.strictEqString "transcribing" then
      block [setStatus "Transcribing…",
             stopWaveform,
             bubbleClassListAdd ["show", "transcribing"],
             bubbleClassListRemove ["listening"]] d
    else if ty.strictEqString "reset" then
      resetBubble d
    else
      (.normal, d)

end FlaskGui

/-! ## Running the scripts -/

/-- How a script reaches an element: through a `const` filled at load time
(`nonNull` tells whether the lookup made then found the element), or through a
lookup made at each use. -/
inductive Access where
  | cached (nonNull : Bool)
  | lookup
deriving DecidableEq, Repr

/-- What the script gets for an element of the live page: a `const` that was
`null` at load stays `null` whatever the page holds now. -/
def Access.see {α : Type} (a : Access) (live : Option α) : Option α :=
  match a with
  | .cached false => none
  | .cached true => live
  | .lookup => live

/-- The element of the live page after the script has run: an element the script
could not reach is as the page had it. -/
def Access.writeBack {α : Type} (a : Access) (live result : Option α) : Option α :=
  match a with
  | .cached false => live
  | .cached true => result
  | .lookup => result

/-- What loading a script leaves behind: the live page, how the script reaches
`#status` and `#bubble` (`.waveform` is always looked up at the point of use; the
`const waveform` of both files is never read), and whether a `message` listener is
registered on the window. -/
structure Runtime where
  doc : Document
  statusAccess : Access
  bubbleAccess : Access
  listenerRegistered : Bool
deriving DecidableEq, Repr

/-- The top-level code of `src/app/static/app.js`: `const status` and
`const waveform` are filled by lookups that yield `null` for a missing element and
never throw, the functions are declared, and the `message` listener is registered.
This file has no `const bubble`: `resetBubble` looks `#bubble` up when it runs. -/
def App.loadScript (d : Document) : Completion × Runtime :=
  (.normal, { doc := d
              statusAccess := .cached d.status.isSome
              bubbleAccess := .lookup
              listenerRegistered := true })

/-- The top-level code of `src/flask_gui/static/app.js`: `const status`,
`const waveform` and `const bubble` are filled by lookups that yield `null` for a
missing element and never throw, the functions are declared, and the `message`
listener is registered. -/
def FlaskGui.loadScript (d : Document) : Completion × Runtime :=
  (.normal, { doc := d
              statusAccess := .cached d.status.isSome
              bubbleAccess := .cached d.bubble.isSome
              listenerRegistered := true })

/-- The page after the host has added elements: an element already in the page
stays as it is, a missing one is taken from `extra` when `extra` has it. -/
def Document.gains (d extra : Document) : Document :=
  { status := d.status <|> extra.status
    waveform := d.waveform <|> extra.waveform
    bubble := d.bubble <|> extra.bubble }

/-- A loaded page whose host adds elements after the script has run its top-level
code; the handles cached at load are not refreshed. -/
def Runtime.pageGains (rt : Runtime) (extra : Document) : Runtime :=
  { rt with doc := rt.doc.gains extra }

/-- The page as the running script reaches it. -/
def Runtime.seen (rt : Runtime) : Document :=
  { status := rt.statusAccess.see rt.doc.status
    waveform := rt.doc.waveform
    bubble := rt.bubbleAccess.see rt.doc.bubble }

/-- The live page after the script has left `result` behind. -/
def Runtime.commit (rt : Runtime) (result : Document) : Document :=
  { status := rt.statusAccess.writeBack rt.doc.status result.status
    waveform := result.waveform
    bubble := rt.bubbleAccess.writeBack rt.doc.bubble result.bubble }

/-- Delivery of one `message` event to a loaded page. -/
def dispatch (listener : JSValue → Stmt) (rt : Runtime) (data : JSValue) :
    Completion × Runtime :=
  if rt.listenerRegistered then
    ((listener data rt.seen).1, { rt with doc := rt.commit (listener data rt.seen).2 })
  else
    (.normal, rt)

/-- The document after a sequence of `message` events, each handled to completion
before the next; a listener that throws does not stop later deliveries. -/
def run (listener : JSValue → Stmt) : List JSValue → Document → Document
  | [], d => d
  | m :: ms, d => run listener ms (listener m d).2

/-- The operations of a script a host page can trigger. -/
inductive Op where
  | startWaveform
  | stopWaveform
  | resetBubble
  | message (data : JSValue)

/-- One operation of the full-featured script. -/
def FlaskGui.step : Op → Stmt
  | .startWaveform => FlaskGui.startWaveform
  | .stopWaveform => FlaskGui.stopWaveform
  | .resetBubble => FlaskGui.resetBubble
  | .message data => FlaskGui.messageListener data

/-- The document after a sequence of operations of the full-featured script. -/
def FlaskGui.runOps : List Op → Document → Document
  | [], d => d
  | o :: os, d => FlaskGui.runOps os (FlaskGui.step o d).2

/-- One operation of the reduced script. -/
def App.step : Op → Stmt
  | .startWaveform => App.startWaveform
  | .stopWaveform => App.stopWaveform
  | .resetBubble => App.resetBubble
  | .message data => App.messageListener data

/-- The document after a sequence of operations of the reduced script. -/
def App.runOps : List Op → Document → Document
  | [], d => d
  | o :: os, d => App.runOps os (App.step o d).2

/-! ## Observations -/

/-- Whether the waveform carries the class token `t`. -/
def Document.waveformHas (d : Document) (t : String) : Bool :=
  match d.waveform with
  | some w => decide (t ∈ w.classList)
  | none => false


/-- Whether `#bubble` carries the class token `t`. -/
def Document.bubbleHas (d : Document) (t : String) : Bool :=
  match d.bubble with
  | some cl => decide (t ∈ cl)
  | none => false

/-- Whether the waveform carries the class token `hidden`. -/
def Document.waveformHidden (d : Document) : Bool :=
  match d.waveform with
  | some w => decide ("hidden" ∈ w.classList)
  | none => false

/-- Every descendant `div` of the waveform has its animation set to `none`. -/
def Document.waveformStopped (d : Document) : Bool :=
  match d.waveform with
  | some w => w.divs.all (fun a => a == "none")
  | none => false

/-- Every descendant `div` of the waveform has the pulse animation. -/
def Document.waveformPulsing (d : Document) : Bool :=
  match d.waveform with
  | some w => w.divs.all (fun a => a == "pulse 1s infinite ease-in-out")
  | none => false

/-- All three elements exist in the page. -/
def Document.Resolved (d : Document) : Bool :=
  d.status.isSome && d.waveform.isSome && d.bubble.isSome

/-- The visual modes of the bubble. -/
inductive Mode where
  | Idle
  | Listening
  | Transcribing
deriving DecidableEq, Repr

/-- The mode as the bubble shows it: the `listening` treatment, the `transcribing`
treatment, or neither. -/
def Document.inMode (d : Document) : Mode → Bool
  | .Idle => !d.bubbleHas "listening" && !d.bubbleHas "transcribing"
  | .Listening => d.bubbleHas "listening"
  | .Transcribing => d.bubbleHas "transcribing"

/-- What each mode requires of the other attributes. -/
def Document.modeRequirements (d : Document) : Mode → Bool
  | .Idle => !d.bubbleHas "show" && d.waveformStopped && decide (d.status = some "")
  | .Listening => d.bubbleHas "show" && d.waveformPulsing
  | .Transcribing =>
    d.bubbleHas "show" && d.waveformStopped && decide (d.status = some "Transcribing…")

/-- The state invariants: exactly one mode holds, and the mode that holds has its
requirements met. -/
def Document.Invariants (d : Document) : Prop :=
  (∃! m, d.inMode m = true) ∧ ∀ m, d.inMode m = true → d.modeRequirements m = true

/-- The initial Idle state: all elements exist, the bubble is not shown and has no
mode treatment, the status text is empty and every waveform animation is stopped. -/
def Document.InitialIdle (d : Document) : Bool :=
  d.Resolved && !d.bubbleHas "show" && !d.bubbleHas "listening" &&
    !d.bubbleHas "transcribing" && decide (d.status = some "") && d.waveformStopped

/-- The attributes of the widget a user can observe. -/
structure View where
  statusText : Option String
  visible : Bool
  listening : Bool
  transcribing : Bool
  waveformHidden : Bool
  waveformOpacity : Option String
  waveformStopped : Bool
deriving DecidableEq, Repr

/-- The observable attributes of a document. -/
def Document.view (d : Document) : View :=
  { statusText := d.status
    visible := d.bubbleHas "show"
    listening := d.bubbleHas "listening"
    transcribing := d.bubbleHas "transcribing"
    waveformHidden := d.waveformHidden
    waveformOpacity := d.waveform.map (fun w => w.opacity)
    waveformStopped := d.waveformStopped }

/-- The view of the Idle state a reset leaves behind. -/
def idleView : View :=
  { statusText := some ""
    visible := false
    listening := false
    transcribing := false
    waveformHidden := true
    waveformOpacity := some "1"
    waveformStopped := true }

/-- A message the listeners do not recognise: its `type` is neither the string
`"transcribing"` nor the string `"reset"`. -/
def Unrecognised (data : JSValue) : Prop :=
  messageType data ≠ .ok (.string "transcribing") ∧ messageType data ≠ .ok (.string "reset")

/-! ## Sample pages and messages -/

/-- A page in the initial Idle state, with two waveform bars. -/
def idlePage : Document :=
  { status := some ""
    waveform := some { classList := ["waveform", "hidden"], opacity := "", divs := ["none", "none"] }
    bubble := some ["bubble"] }

/-- A page in the Listening state. -/
def listeningPage : Document :=
  { status := some "Listening…"
    waveform := some { classList := ["waveform"], opacity := "1",
                       divs := ["pulse 1s infinite ease-in-out", "pulse 1s infinite ease-in-out"] }
    bubble := some ["bubble", "show", "listening"] }

/-- A page whose `#bubble` element is missing. -/
def pageWithoutBubble : Document :=
  { status := some ""
    waveform := some { classList := ["waveform"], opacity := "", divs := ["none", "none"] }
    bubble := none }

/-- A page fragment holding only a `#bubble` element. -/
def bubbleOnly : Document :=
  { status := none
    waveform := none
    bubble := some ["bubble"] }

/-- The message `{ type: "transcribing" }`. -/
def transcribingMsg : JSValue := .object [("type", .string "transcribing")]

/-- The message `{ type: "reset" }`. -/
def resetMsg : JSValue := .object [("type", .string "reset")]

/-- The message `{ type: "bogus" }`. -/
def bogusMsg : JSValue := .object [("type", .string "bogus")]

/-! ## Class token lists -/

theorem mem_tokenAdd (l : List String) (t x : String) :
    x ∈ tokenAdd l t ↔ x ∈ l ∨ x = t := by
  unfold tokenAdd
  split
  · constructor
    · intro h; exact Or.inl h
    · rintro (h | h)
      · exact h
      · subst h; assumption
  · simp

theorem mem_tokenRemove (l : List String) (t x : String) :
    x ∈ tokenRemove l t ↔ x ∈ l ∧ x ≠ t := by
  simp [tokenRemove]

theorem tokenAdd_of_mem {l : List String} {t : String} (h : t ∈ l) :
    tokenAdd l t = l := by
  simp [tokenAdd, h]

theorem tokenRemove_of_not_mem {l : List String} {t : String} (h : t ∉ l) :
    tokenRemove l t = l := by
  unfold tokenRemove
  rw [List.filter_eq_self]
  intro a ha
  have : a ≠ t := fun e => h (e ▸ ha)
  simpa using this

/-! ## The message listeners, branch by branch -/

theorem messageType_ok (data : JSValue) : ∃ ty, messageType data = .ok ty := by
  cases data with
  | boolean b => cases b <;> exact ⟨_, rfl⟩
  | number n =>
    by_cases h : n = 0 <;>
      simp [messageType, JSValue.or, JSValue.truthy, h, JSValue.readType]
  | string s =>
    by_cases h : s = "" <;>
      simp [messageType, JSValue.or, JSValue.truthy, h, JSValue.readType]
  | _ => exact ⟨_, rfl⟩

theorem strictEqString_iff (ty : JSValue) (s : String) :
    ty.strictEqString s = true ↔ ty = .string s := by
  cases ty <;> simp [JSValue.strictEqString]

theorem app_listener_transcribing {data : JSValue}
    (h : messageType data = .ok (.string "transcribing")) :
    App.messageListener data = block [App.setStatus "Transcribing…", App.stopWaveform] := by
  funext d
  simp [App.messageListener, h, JSValue.strictEqString]

theorem app_listener_reset {data : JSValue}
    (h : messageType data = .ok (.string "reset")) :
    App.messageListener data = App.resetBubble := by
  funext d
  simp [App.messageListener, h, JSValue.strictEqString]

theorem app_listener_unrecognised {data : JSValue} (h : Unrecognised data)
    (d : Document) : App.messageListener data d = (.normal, d) := by
  obtain ⟨ty, hty⟩ := messageType_ok data
  have h1 : ty.strictEqString "transcribing" = false := by
    rw [Bool.eq_false_iff, Ne, strictEqString_iff]
    intro e; exact h.1 (by rw [hty, e])
  have h2 : ty.strictEqString "reset" = false := by
    rw [Bool.eq_false_iff, Ne, strictEqString_iff]
    intro e; exact h.2 (by rw [hty, e])
  simp [App.messageListener, hty, h1, h2]

theorem flask_listener_transcribing {data : JSValue}
    (h : messageType data = .ok (.string "transcribing")) :
    FlaskGui.messageListener data =
      block [FlaskGui.setStatus "Transcribing…", FlaskGui.stopWaveform,
             bubbleClassListAdd ["show", "transcribing"], bubbleClassListRemove ["listening"]] := by
  funext d
  simp [FlaskGui.messageListener, h, JSValue.strictEqString]

theorem flask_listener_reset {data : JSValue}
    (h : messageType data = .ok (.string "reset")) :
    FlaskGui.messageListener data = FlaskGui.resetBubble := by
  funext d
  simp [FlaskGui.messageListener, h, JSValue.strictEqString]

theorem flask_listener_unrecognised {data : JSValue} (h : Unrecognised data)
    (d : Document) : FlaskGui.messageListener data d = (.normal, d) := by
  obtain ⟨ty, hty⟩ := messageType_ok data
  have h1 : ty.strictEqString "transcribing" = false := by
    rw [Bool.eq_false_iff, Ne, strictEqString_iff]
    intro e; exact h.1 (by rw [hty, e])
  have h2 : ty.strictEqString "reset" = false := by
    rw [Bool.eq_false_iff, Ne, strictEqString_iff]
    intro e; exact h.2 (by rw [hty, e])
  simp [FlaskGui.messageListener, hty, h1, h2]

/-- Every message is a transcribing notification, a reset notification, or
unrecognised. -/
theorem message_cases (data : JSValue) :
    messageType data = .ok (.string "transcribing") ∨
      messageType data = .ok (.string "reset") ∨ Unrecognised data := by
  by_cases h1 : messageType data = .ok (.string "transcribing")
  · exact Or.inl h1
  · by_cases h2 : messageType data = .ok (.string "reset")
    · exact Or.inr (Or.inl h2)
    · exact Or.inr (Or.inr ⟨h1, h2⟩)

theorem unrecognised_bogus : Unrecognised bogusMsg :=
  ⟨fun h => by simp [messageType, JSValue.or, JSValue.truthy, JSValue.readType, bogusMsg] at h,
   fun h => by simp [messageType, JSValue.or, JSValue.truthy, JSValue.readType, bogusMsg] at h⟩

theorem unrecognised_null : Unrecognised .null :=
  ⟨fun h => by simp [messageType, JSValue.or, JSValue.truthy, JSValue.readType] at h,
   fun h => by simp [messageType, JSValue.or, JSValue.truthy, JSValue.readType] at h⟩

/-! ## The invariants in each mode -/

theorem invariants_of_idle (d : Document) (hs : d.bubbleHas "show" = false)
    (hl : d.bubbleHas "listening" = false) (ht : d.bubbleHas "transcribing" = false)
    (hw : d.waveformStopped = true) (htext : d.status = some "") : d.Invariants := by
  refine ⟨⟨.Idle, by simp [Document.inMode, hl, ht], ?_⟩, ?_⟩
  · intro m hm
    cases m <;> simp [Document.inMode, hl, ht] at hm ⊢
  · intro m hm
    cases m <;> simp [Document.inMode, Document.modeRequirements, hs, hl, ht, hw, htext] at hm ⊢

theorem invariants_of_listening (d : Document) (hs : d.bubbleHas "show" = true)
    (hl : d.bubbleHas "listening" = true) (ht : d.bubbleHas "transcribing" = false)
    (hw : d.waveformPulsing = true) : d.Invariants := by
  refine ⟨⟨.Listening, by simp [Document.inMode, hl], ?_⟩, ?_⟩
  · intro m hm
    cases m <;> simp [Document.inMode, hl, ht] at hm ⊢
  · intro m hm
    cases m <;> simp [Document.inMode, Document.modeRequirements, hs, hl, ht, hw] at hm ⊢

theorem invariants_of_transcribing (d : Document) (hs : d.bubbleHas "show" = true)
    (hl : d.bubbleHas "listening" = false) (ht : d.bubbleHas "transcribing" = true)
    (hw : d.waveformStopped = true) (htext : d.status = some "Transcribing…") :
    d.Invariants := by
  refine ⟨⟨.Transcribing, by simp [Document.inMode, ht], ?_⟩, ?_⟩
  · intro m hm
    cases m <;> simp [Document.inMode, hl, ht] at hm ⊢
  · intro m hm
    cases m <;> simp [Document.inMode, Document.modeRequirements, hs, hl, ht, hw, htext] at hm ⊢

/-! ## Handling a `transcribing` message -/

/-- C2, counterexample: in the reduced variant the `transcribing` branch never
touches the bubble, so from the initial Idle page the bubble is still not shown
after the message is handled. -/
theorem C2_reduced_transcribing_leaves_bubble_hidden :
    idlePage.Resolved = true ∧
      messageType transcribingMsg = .ok (.string "transcribing") ∧
      (App.messageListener transcribingMsg idlePage).1 = .normal ∧
      (App.messageListener transcribingMsg idlePage).2.bubbleHas "show" = false :=
  ⟨by decide, rfl, by decide, by decide⟩

/-- C2, amended: on a page whose three elements exist, handling a message of type
`"transcribing"` ends normally with status text `"Transcribing…"` and every
waveform animation stopped, in both variants.  In the full-featured variant the
bubble then has `show` and `transcribing` and does not have `listening`; in the
reduced variant the bubble's class tokens are left exactly as they were. -/
theorem C2_transcribing_effect (d : Document) (data : JSValue)
    (hd : d.Resolved = true)
    (hty : messageType data = .ok (.string "transcribing")) :
    ((FlaskGui.messageListener data d).1 = .normal ∧
      (FlaskGui.messageListener data d).2.status = some "Transcribing…" ∧
      (FlaskGui.messageListener data d).2.waveformStopped = true ∧
      (FlaskGui.messageListener data d).2.bubbleHas "show" = true ∧
      (FlaskGui.messageListener data d).2.bubbleHas "transcribing" = true ∧
      (FlaskGui.messageListener data d).2.bubbleHas "listening" = false) ∧
    ((App.messageListener data d).1 = .normal ∧
      (App.messageListener data d).2.status = some "Transcribing…" ∧
      (App.messageListener data d).2.waveformStopped = true ∧
      (App.messageListener data d).2.bubble = d.bubble) := by
  rw [flask_listener_transcribing hty, app_listener_transcribing hty]
  obtain ⟨_ | s, _ | w, _ | b⟩ := d <;> simp [Document.Resolved] at hd
  simp [block, FlaskGui.setStatus, FlaskGui.stopWaveform, App.setStatus, App.stopWaveform,
    statusSetTextContent, wfClassListAdd, wfSetAnimation, waveformUpdate, bubbleClassListAdd,
    bubbleClassListRemove, bubbleUpdate, classListAdd, classListRemove, mem_tokenAdd,
    mem_tokenRemove, Document.bubbleHas, Document.waveformStopped]

/-- C2, the amended statement at the Listening page. -/
theorem C2_transcribing_effect_witness :
    ((FlaskGui.messageListener transcribingMsg listeningPage).1 = .normal ∧
      (FlaskGui.messageListener transcribingMsg listeningPage).2.status = some "Transcribing…" ∧
      (FlaskGui.messageListener transcribingMsg listeningPage).2.waveformStopped = true ∧
      (FlaskGui.messageListener transcribingMsg listeningPage).2.bubbleHas "show" = true ∧
      (FlaskGui.messageListener transcribingMsg listeningPage).2.bubbleHas "transcribing" = true ∧
      (FlaskGui.messageListener transcribingMsg listeningPage).2.bubbleHas "listening" = false) ∧
    ((App.messageListener transcribingMsg listeningPage).1 = .normal ∧
      (App.messageListener transcribingMsg listeningPage).2.status = some "Transcribing…" ∧
      (App.messageListener transcribingMsg listeningPage).2.waveformStopped = true ∧
      (App.messageListener transcribingMsg listeningPage).2.bubble = listeningPage.bubble) :=
  C2_transcribing_effect listeningPage transcribingMsg (by decide) rfl

/-! ## Handling a `reset` message -/

/-- No operation of the reduced script adds a class token to the bubble. -/
theorem app_step_bubble (o : Op) (d : Document) (t : String)
    (h : (App.step o d).2.bubbleHas t = true) : d.bubbleHas t = true := by
  cases o with
  | startWaveform =>
    obtain ⟨_ | s, _ | w, _ | b⟩ := d <;>
      simp_all [App.step, block, App.startWaveform, wfClassListRemove, wfSetOpacity,
        wfSetAnimation, waveformUpdate, Document.bubbleHas]
  | stopWaveform =>
    obtain ⟨_ | s, _ | w, _ | b⟩ := d <;>
      simp_all [App.step, block, App.stopWaveform, wfClassListAdd, wfSetAnimation,
        waveformUpdate, Document.bubbleHas]
  | resetBubble =>
    obtain ⟨_ | s, _ | w, _ | b⟩ := d <;>
      simp_all [App.step, block, App.resetBubble, statusSetTextContent, wfClassListAdd,
        wfSetOpacity, wfSetAnimation, waveformUpdate, bubbleClassListRemove, bubbleUpdate,
        classListRemove, mem_tokenRemove, Document.bubbleHas]
  | message data =>
    rcases message_cases data with hm | hm | hm
    · simp only [App.step, app_listener_transcribing hm] at h
      obtain ⟨_ | s, _ | w, _ | b⟩ := d <;>
        simp_all [block, App.setStatus, App.stopWaveform, statusSetTextContent,
          wfClassListAdd, wfSetAnimation, waveformUpdate, Document.bubbleHas]
    · simp only [App.step, app_listener_reset hm] at h
      obtain ⟨_ | s, _ | w, _ | b⟩ := d <;>
        simp_all [block, App.resetBubble, statusSetTextContent, wfClassListAdd,
          wfSetOpacity, wfSetAnimation, waveformUpdate, bubbleClassListRemove, bubbleUpdate,
          classListRemove, mem_tokenRemove, Document.bubbleHas]
    · simpa [App.step, app_listener_unrecognised hm] using h

theorem app_runOps_bubble (ops : List Op) (d : Document) (t : String)
    (h : (App.runOps ops d).bubbleHas t = true) : d.bubbleHas t = true := by
  induction ops generalizing d with
  | nil => exact h
  | cons o os ih => exact app_step_bubble o d t (ih _ h)

theorem app_reset_view (d : Document) (data : JSValue) (hd : d.Resolved = true)
    (hty : messageType data = .ok (.string "reset")) :
    (App.messageListener data d).1 = .normal ∧
      (App.messageListener data d).2.view =
        { idleView with listening := d.bubbleHas "listening"
                        transcribing := d.bubbleHas "transcribing" } := by
  rw [app_listener_reset hty]
  obtain ⟨_ | s, _ | w, _ | b⟩ := d <;> simp [Document.Resolved] at hd
  simp [block, App.resetBubble, statusSetTextContent, wfClassListAdd,
    wfSetOpacity, wfSetAnimation, waveformUpdate, bubbleClassListRemove, bubbleUpdate,
    classListAdd, classListRemove, mem_tokenAdd, mem_tokenRemove, Document.bubbleHas,
    Document.waveformStopped, Document.waveformHidden, Document.view, idleView]

theorem flask_reset_view (d : Document) (data : JSValue) (hd : d.Resolved = true)
    (hty : messageType data = .ok (.string "reset")) :
    (FlaskGui.messageListener data d).1 = .normal ∧
      (FlaskGui.messageListener data d).2.view = idleView := by
  rw [flask_listener_reset hty]
  obtain ⟨_ | s, _ | w, _ | b⟩ := d <;> simp [Document.Resolved] at hd
  simp [block, FlaskGui.resetBubble, statusSetTextContent, wfClassListAdd,
    wfSetOpacity, wfSetAnimation, waveformUpdate, bubbleClassListRemove, bubbleUpdate,
    classListAdd, classListRemove, mem_tokenAdd, mem_tokenRemove, Document.bubbleHas,
    Document.waveformStopped, Document.waveformHidden, Document.view, idleView]

/-- C3: handling a message of type `"reset"` ends normally in the Idle state,
whose observable attributes are those of `idleView` (bubble not shown, no
`listening` and no `transcribing` treatment, status text `""`, every waveform
animation `none`, waveform hidden with opacity `"1"`), the same whatever the prior
state was.  In the full-featured variant the prior state `d` is any page whose
three elements exist.  In the reduced variant the prior state is any such page
the script can be in: one reached by any sequence `ops` of its operations
(`startWaveform`, `stopWaveform`, `resetBubble`, message deliveries) from a page
`d0` whose bubble carries neither mode treatment, the reduced script never adding
a class to the bubble. -/
theorem C3_reset_yields_idle (d d0 : Document) (ops : List Op) (data : JSValue)
    (hd : d.Resolved = true)
    (hl : d0.bubbleHas "listening" = false)
    (ht : d0.bubbleHas "transcribing" = false)
    (h0 : (App.runOps ops d0).Resolved = true)
    (hty : messageType data = .ok (.string "reset")) :
    ((FlaskGui.messageListener data d).1 = .normal ∧
      (FlaskGui.messageListener data d).2.view = idleView) ∧
    ((App.messageListener data (App.runOps ops d0)).1 = .normal ∧
      (App.messageListener data (App.runOps ops d0)).2.view = idleView) := by
  refine ⟨flask_reset_view d data hd hty, ?_⟩
  have hl2 : (App.runOps ops d0).bubbleHas "listening" = false := by
    cases h : (App.runOps ops d0).bubbleHas "listening"
    · rfl
    · rw [app_runOps_bubble ops d0 _ h] at hl
      exact Bool.noConfusion hl
  have ht2 : (App.runOps ops d0).bubbleHas "transcribing" = false := by
    cases h : (App.runOps ops d0).bubbleHas "transcribing"
    · rfl
    · rw [app_runOps_bubble ops d0 _ h] at ht
      exact Bool.noConfusion ht
  obtain ⟨h1, h2⟩ := app_reset_view (App.runOps ops d0) data h0 hty
  refine ⟨h1, ?_⟩
  rw [h2, hl2, ht2]
  rfl

/-- C3 at the Listening page for the full-featured variant, and for the reduced
variant at the page reached from the initial Idle page by `startWaveform` and a
`transcribing` message. -/
theorem C3_reset_yields_idle_witness :
    ((FlaskGui.messageListener resetMsg listeningPage).1 = .normal ∧
      (FlaskGui.messageListener resetMsg listeningPage).2.view = idleView) ∧
    ((App.messageListener resetMsg
          (App.runOps [.startWaveform, .message transcribingMsg] idlePage)).1 = .normal ∧
      (App.messageListener resetMsg
          (App.runOps [.startWaveform, .message transcribingMsg] idlePage)).2.view
        = idleView) :=
  C3_reset_yields_idle listeningPage idlePage [.startWaveform, .message transcribingMsg]
    resetMsg (by decide) (by decide) (by decide) (by decide) rfl

/-! ## Unrecognised messages -/

/-- C4: for every document (whether or not its elements exist) and every message
whose `type`, as read by `const { type } = event.data || {}`, is neither the string
`"transcribing"` nor the string `"reset"`, both listeners end normally and return
the document unchanged in every field. -/
theorem C4_unrecognised_message_is_noop (d : Document) (data : JSValue)
    (hu : Unrecognised data) :
    App.messageListener data d = (.normal, d) ∧
      FlaskGui.messageListener data d = (.normal, d) :=
  ⟨app_listener_unrecognised hu d, flask_listener_unrecognised hu d⟩

/-- C4 at the Listening page for the messages `{ type: "bogus" }`, `null`,
`undefined`, `{}`, `{ type: "Transcribing" }`, `{ type: "RESET" }` and the bare
string `"reset"`. -/
theorem C4_unrecognised_message_is_noop_witness :
    (App.messageListener bogusMsg listeningPage = (.normal, listeningPage) ∧
      FlaskGui.messageListener bogusMsg listeningPage = (.normal, listeningPage)) ∧
    (App.messageListener .null listeningPage = (.normal, listeningPage) ∧
      FlaskGui.messageListener .null listeningPage = (.normal, listeningPage)) ∧
    (App.messageListener .undefined listeningPage = (.normal, listeningPage) ∧
      FlaskGui.messageListener .undefined listeningPage = (.normal, listeningPage)) ∧
    (App.messageListener (.object []) listeningPage = (.normal, listeningPage) ∧
      FlaskGui.messageListener (.object []) listeningPage = (.normal, listeningPage)) ∧
    (App.messageListener (.object [("type", .string "Transcribing")]) listeningPage
        = (.normal, listeningPage) ∧
      FlaskGui.messageListener (.object [("type", .string "Transcribing")]) listeningPage
        = (.normal, listeningPage)) ∧
    (App.messageListener (.object [("type", .string "RESET")]) listeningPage
        = (.normal, listeningPage) ∧
      FlaskGui.messageListener (.object [("type", .string "RESET")]) listeningPage
        = (.normal, listeningPage)) ∧
    (App.messageListener (.string "reset") listeningPage = (.normal, listeningPage) ∧
      FlaskGui.messageListener (.string "reset") listeningPage = (.normal, listeningPage)) :=
  ⟨C4_unrecognised_message_is_noop listeningPage bogusMsg unrecognised_bogus,
   C4_unrecognised_message_is_noop listeningPage .null
     ⟨fun h => by simp [messageType, JSValue.or, JSValue.truthy, JSValue.readType] at h,
      fun h => by simp [messageType, JSValue.or, JSValue.truthy, JSValue.readType] at h⟩,
   C4_unrecognised_message_is_noop listeningPage .undefined
     ⟨fun h => by simp [messageType, JSValue.or, JSValue.truthy, JSValue.readType] at h,
      fun h => by simp [messageType, JSValue.or, JSValue.truthy, JSValue.readType] at h⟩,
   C4_unrecognised_message_is_noop listeningPage (.object [])
     ⟨fun h => by simp [messageType, JSValue.or, JSValue.truthy, JSValue.readType] at h,
      fun h => by simp [messageType, JSValue.or, JSValue.truthy, JSValue.readType] at h⟩,
   C4_unrecognised_message_is_noop listeningPage (.object [("type", .string "Transcribing")])
     ⟨fun h => by simp [messageType, JSValue.or, JSValue.truthy, JSValue.readType] at h,
      fun h => by simp [messageType, JSValue.or, JSValue.truthy, JSValue.readType] at h⟩,
   C4_unrecognised_message_is_noop listeningPage (.object [("type", .string "RESET")])
     ⟨fun h => by simp [messageType, JSValue.or, JSValue.truthy, JSValue.readType] at h,
      fun h => by simp [messageType, JSValue.or, JSValue.truthy, JSValue.readType] at h⟩,
   C4_unrecognised_message_is_noop listeningPage (.string "reset")
     ⟨fun h => by simp [messageType, JSValue.or, JSValue.truthy, JSValue.readType] at h,
      fun h => by simp [messageType, JSValue.or, JSValue.truthy, JSValue.readType] at h⟩⟩

/-! ## Idempotence -/

theorem app_transcribing_idem (d : Document) :
    block [App.setStatus "Transcribing…", App.stopWaveform]
        (block [App.setStatus "Transcribing…", App.stopWaveform] d).2
      = block [App.setStatus "Transcribing…", App.stopWaveform] d := by
  obtain ⟨_ | s, _ | w, _ | b⟩ := d <;>
    simp [block, App.setStatus, App.stopWaveform, statusSetTextContent, wfClassListAdd,
      wfSetAnimation, waveformUpdate, classListAdd, tokenAdd_of_mem, mem_tokenAdd]

theorem app_resetBubble_idem (d : Document) :
    App.resetBubble (App.resetBubble d).2 = App.resetBubble d := by
  obtain ⟨_ | s, _ | w, _ | b⟩ := d <;>
    simp [block, App.resetBubble, statusSetTextContent, wfClassListAdd, wfSetOpacity,
      wfSetAnimation, waveformUpdate, bubbleClassListRemove, bubbleUpdate, classListAdd,
      classListRemove, tokenAdd_of_mem, tokenRemove_of_not_mem, mem_tokenAdd, mem_tokenRemove]

theorem flask_transcribing_idem (d : Document) :
    block [FlaskGui.setStatus "Transcribing…", FlaskGui.stopWaveform,
           bubbleClassListAdd ["show", "transcribing"], bubbleClassListRemove ["listening"]]
        (block [FlaskGui.setStatus "Transcribing…", FlaskGui.stopWaveform,
           bubbleClassListAdd ["show", "transcribing"], bubbleClassListRemove ["listening"]] d).2
      = block [FlaskGui.setStatus "Transcribing…", FlaskGui.stopWaveform,
           bubbleClassListAdd ["show", "transcribing"], bubbleClassListRemove ["listening"]] d := by
  obtain ⟨_ | s, _ | w, _ | b⟩ := d <;>
    simp [block, FlaskGui.setStatus, FlaskGui.stopWaveform, statusSetTextContent, wfClassListAdd,
      wfSetAnimation, waveformUpdate, bubbleClassListAdd, bubbleClassListRemove, bubbleUpdate,
      classListAdd, classListRemove, tokenAdd_of_mem, tokenRemove_of_not_mem, mem_tokenAdd,
      mem_tokenRemove]

theorem flask_resetBubble_idem (d : Document) :
    FlaskGui.resetBubble (FlaskGui.resetBubble d).2 = FlaskGui.resetBubble d := by
  obtain ⟨_ | s, _ | w, _ | b⟩ := d <;>
    simp [block, FlaskGui.resetBubble, statusSetTextContent, wfClassListAdd, wfSetOpacity,
      wfSetAnimation, waveformUpdate, bubbleClassListRemove, bubbleUpdate, classListAdd,
      classListRemove, tokenAdd_of_mem, tokenRemove_of_not_mem, mem_tokenAdd, mem_tokenRemove]

/-- C5: in both variants, for every document and every message (in particular a
message of type `"reset"` and a message of type `"transcribing"`), handling the
message a second time right after the first yields exactly the completion and the
document that handling it once yields. -/
theorem C5_message_handling_idempotent (d : Document) (data : JSValue) :
    App.messageListener data (App.messageListener data d).2 = App.messageListener data d ∧
      FlaskGui.messageListener data (FlaskGui.messageListener data d).2
        = FlaskGui.messageListener data d := by
  rcases message_cases data with h | h | h
  · rw [app_listener_transcribing h, flask_listener_transcribing h]
    exact ⟨app_transcribing_idem d, flask_transcribing_idem d⟩
  · rw [app_listener_reset h, flask_listener_reset h]
    exact ⟨app_resetBubble_idem d, flask_resetBubble_idem d⟩
  · simp [app_listener_unrecognised h, flask_listener_unrecognised h]

/-! ## `startWaveform` and `stopWaveform` -/

/-- C6: in the full-featured variant, on a page whose three elements exist (the
Idle state included), `startWaveform` ends normally and leaves the Listening state:
the bubble has `show` and `listening` and not `transcribing`, the waveform is not
hidden, the status text is `"Listening…"`, and the state invariants hold with mode
Listening.  The waveform keeps all its bars, each of them now with the pulse
animation, its opacity is `"1"` and it keeps every class token other than `hidden`;
the bubble keeps every class token other than the three treatments. -/
theorem C6_startWaveform_enters_listening (d : Document) (hd : d.Resolved = true) :
    (FlaskGui.startWaveform d).1 = .normal ∧
      (FlaskGui.startWaveform d).2.bubbleHas "show" = true ∧
      (FlaskGui.startWaveform d).2.bubbleHas "listening" = true ∧
      (FlaskGui.startWaveform d).2.bubbleHas "transcribing" = false ∧
      (FlaskGui.startWaveform d).2.waveformHidden = false ∧
      (FlaskGui.startWaveform d).2.waveformPulsing = true ∧
      (FlaskGui.startWaveform d).2.status = some "Listening…" ∧
      (FlaskGui.startWaveform d).2.inMode .Listening = true ∧
      (FlaskGui.startWaveform d).2.Invariants ∧
      (FlaskGui.startWaveform d).2.waveform.map (fun w => w.divs) =
        d.waveform.map
          (fun w => List.replicate w.divs.length "pulse 1s infinite ease-in-out") ∧
      (FlaskGui.startWaveform d).2.waveform.map (fun w => w.opacity) = some "1" ∧
      (∀ t, t ≠ "hidden" →
        (FlaskGui.startWaveform d).2.waveformHas t = d.waveformHas t) ∧
      (∀ t, t ≠ "show" → t ≠ "listening" → t ≠ "transcribing" →
        (FlaskGui.startWaveform d).2.bubbleHas t = d.bubbleHas t) := by
  obtain ⟨_ | s, _ | w, _ | b⟩ := d <;> simp [Document.Resolved] at hd
  have key : (FlaskGui.startWaveform ⟨some s, some w, some b⟩) =
      (.normal, ⟨some "Listening…",
        some { classList := tokenRemove w.classList "hidden", opacity := "1",
               divs := w.divs.map (fun _ => "pulse 1s infinite ease-in-out") },
        some (tokenRemove (tokenAdd (tokenAdd b "show") "listening") "transcribing")⟩) := by
    simp [block, FlaskGui.startWaveform, FlaskGui.setStatus, statusSetTextContent,
      wfClassListRemove, wfSetOpacity, wfSetAnimation, waveformUpdate, bubbleClassListAdd,
      bubbleClassListRemove, bubbleUpdate, classListAdd, classListRemove]
  have hshow : (FlaskGui.startWaveform ⟨some s, some w, some b⟩).2.bubbleHas "show" = true := by
    simp [key, Document.bubbleHas, mem_tokenAdd, mem_tokenRemove]
  have hlis : (FlaskGui.startWaveform ⟨some s, some w, some b⟩).2.bubbleHas "listening"
      = true := by
    simp [key, Document.bubbleHas, mem_tokenAdd, mem_tokenRemove]
  have htr : (FlaskGui.startWaveform ⟨some s, some w, some b⟩).2.bubbleHas "transcribing"
      = false := by
    simp [key, Document.bubbleHas, mem_tokenAdd, mem_tokenRemove]
  have hpulse : (FlaskGui.startWaveform ⟨some s, some w, some b⟩).2.waveformPulsing = true := by
    simp [key, Document.waveformPulsing]
  refine ⟨by rw [key], hshow, hlis, htr, ?_, hpulse, by rw [key], ?_,
    invariants_of_listening _ hshow hlis htr hpulse, ?_, ?_, ?_, ?_⟩
  · simp [key, Document.waveformHidden, mem_tokenRemove]
  · simpa [Document.inMode] using hlis
  · simp [key]
  · simp [key]
  · intro t ht
    simp [key, Document.waveformHas, mem_tokenRemove, ht]
  · intro t h1 h2 h3
    simp [key, Document.bubbleHas, mem_tokenAdd, mem_tokenRemove, h1, h2, h3]

/-- C6 at the initial Idle page, which has two bars. -/
theorem C6_startWaveform_enters_listening_witness :
    (FlaskGui.startWaveform idlePage).1 = .normal ∧
      (FlaskGui.startWaveform idlePage).2.bubbleHas "show" = true ∧
      (FlaskGui.startWaveform idlePage).2.bubbleHas "listening" = true ∧
      (FlaskGui.startWaveform idlePage).2.bubbleHas "transcribing" = false ∧
      (FlaskGui.startWaveform idlePage).2.waveformHidden = false ∧
      (FlaskGui.startWaveform idlePage).2.waveformPulsing = true ∧
      (FlaskGui.startWaveform idlePage).2.status = some "Listening…" ∧
      (FlaskGui.startWaveform idlePage).2.inMode .Listening = true ∧
      (FlaskGui.startWaveform idlePage).2.Invariants ∧
      (FlaskGui.startWaveform idlePage).2.waveform.map (fun w => w.divs) =
        idlePage.waveform.map
          (fun w => List.replicate w.divs.length "pulse 1s infinite ease-in-out") ∧
      (FlaskGui.startWaveform idlePage).2.waveform.map (fun w => w.opacity) = some "1" ∧
      (∀ t, t ≠ "hidden" →
        (FlaskGui.startWaveform idlePage).2.waveformHas t = idlePage.waveformHas t) ∧
      (∀ t, t ≠ "show" → t ≠ "listening" → t ≠ "transcribing" →
        (FlaskGui.startWaveform idlePage).2.bubbleHas t = idlePage.bubbleHas t) :=
  C6_startWaveform_enters_listening idlePage (by decide)

/-- C7, counterexample: in the full-featured variant `stopWaveform` removes the
`listening` treatment, so from the Listening page the mode shown by the bubble
changes. -/
theorem C7_full_stopWaveform_removes_listening :
    listeningPage.Resolved = true ∧
      listeningPage.inMode .Listening = true ∧
      (FlaskGui.stopWaveform listeningPage).1 = .normal ∧
      (FlaskGui.stopWaveform listeningPage).2.bubbleHas "listening" = false ∧
      (FlaskGui.stopWaveform listeningPage).2.inMode .Listening = false ∧
      (FlaskGui.stopWaveform listeningPage).2.inMode .Idle = true :=
  ⟨by decide, by decide, by decide, by decide, by decide, by decide⟩

/-- C7, amended: on a page whose three elements exist, `stopWaveform` ends normally
with every waveform animation stopped and the status text unchanged, in both
variants.  In the reduced variant the bubble's class tokens are unchanged.  In the
full-featured variant it removes the `listening` treatment from the bubble and
changes no other class token of it, so `show` and `transcribing` are as before. -/
theorem C7_stopWaveform_effect (d : Document) (hd : d.Resolved = true) :
    ((App.stopWaveform d).1 = .normal ∧
      (App.stopWaveform d).2.waveformStopped = true ∧
      (App.stopWaveform d).2.status = d.status ∧
      (App.stopWaveform d).2.bubble = d.bubble) ∧
    ((FlaskGui.stopWaveform d).1 = .normal ∧
      (FlaskGui.stopWaveform d).2.waveformStopped = true ∧
      (FlaskGui.stopWaveform d).2.status = d.status ∧
      (FlaskGui.stopWaveform d).2.bubbleHas "listening" = false ∧
      ∀ t, t ≠ "listening" → (FlaskGui.stopWaveform d).2.bubbleHas t = d.bubbleHas t) := by
  obtain ⟨_ | s, _ | w, _ | b⟩ := d <;> simp [Document.Resolved] at hd
  simp [block, FlaskGui.stopWaveform, App.stopWaveform, wfClassListAdd, wfSetAnimation,
    waveformUpdate, bubbleClassListRemove, bubbleUpdate, classListAdd, classListRemove,
    mem_tokenRemove, Document.bubbleHas, Document.waveformStopped]
  intro t ht _
  exact ht

/-- C7, the amended statement at the Listening page. -/
theorem C7_stopWaveform_effect_witness :
    ((App.stopWaveform listeningPage).1 = .normal ∧
      (App.stopWaveform listeningPage).2.waveformStopped = true ∧
      (App.stopWaveform listeningPage).2.status = listeningPage.status ∧
      (App.stopWaveform listeningPage).2.bubble = listeningPage.bubble) ∧
    ((FlaskGui.stopWaveform listeningPage).1 = .normal ∧
      (FlaskGui.stopWaveform listeningPage).2.waveformStopped = true ∧
      (FlaskGui.stopWaveform listeningPage).2.status = listeningPage.status ∧
      (FlaskGui.stopWaveform listeningPage).2.bubbleHas "listening" = false ∧
      ∀ t, t ≠ "listening" →
        (FlaskGui.stopWaveform listeningPage).2.bubbleHas t = listeningPage.bubbleHas t) :=
  C7_stopWaveform_effect listeningPage (by decide)

/-! ## Sequences of messages -/

theorem run_append (h : JSValue → Stmt) (xs ys : List JSValue) (d : Document) :
    run h (xs ++ ys) d = run h ys (run h xs d) := by
  induction xs generalizing d with
  | nil => rfl
  | cons x xs ih => simp [run, ih]

theorem run_invariant (h : JSValue → Stmt) (P : Document → Prop)
    (hstep : ∀ m d, P d → P (h m d).2) (ms : List JSValue) (d : Document) (hd : P d) :
    P (run h ms d) := by
  induction ms generalizing d with
  | nil => exact hd
  | cons m ms ih => exact ih _ (hstep m d hd)

theorem app_run_unrecognised (us : List JSValue) (hu : ∀ u ∈ us, Unrecognised u)
    (d : Document) : run App.messageListener us d = d := by
  induction us with
  | nil => rfl
  | cons u us ih =>
    simp only [run, app_listener_unrecognised (hu u (List.mem_cons_self u us))]
    exact ih (fun v hv => hu v (List.mem_cons_of_mem u hv))

theorem flask_run_unrecognised (us : List JSValue) (hu : ∀ u ∈ us, Unrecognised u)
    (d : Document) : run FlaskGui.messageListener us d = d := by
  induction us with
  | nil => rfl
  | cons u us ih =>
    simp only [run, flask_listener_unrecognised (hu u (List.mem_cons_self u us))]
    exact ih (fun v hv => hu v (List.mem_cons_of_mem u hv))

theorem flask_transcribing_post (d : Document) (data : JSValue) (hd : d.Resolved = true)
    (hty : messageType data = .ok (.string "transcribing")) :
    (FlaskGui.messageListener data d).2.Resolved = true ∧
      (FlaskGui.messageListener data d).2.bubbleHas "show" = true ∧
      (FlaskGui.messageListener data d).2.bubbleHas "listening" = false ∧
      (FlaskGui.messageListener data d).2.bubbleHas "transcribing" = true ∧
      (FlaskGui.messageListener data d).2.waveformStopped = true ∧
      (FlaskGui.messageListener data d).2.status = some "Transcribing…" := by
  rw [flask_listener_transcribing hty]
  obtain ⟨_ | s, _ | w, _ | b⟩ := d <;> simp [Document.Resolved] at hd
  simp [block, FlaskGui.setStatus, FlaskGui.stopWaveform, statusSetTextContent, wfClassListAdd,
    wfSetAnimation, waveformUpdate, bubbleClassListAdd, bubbleClassListRemove, bubbleUpdate,
    classListAdd, classListRemove, mem_tokenAdd, mem_tokenRemove, Document.bubbleHas,
    Document.waveformStopped, Document.Resolved]

theorem flask_reset_post (d : Document) (data : JSValue) (hd : d.Resolved = true)
    (hty : messageType data = .ok (.string "reset")) :
    (FlaskGui.messageListener data d).2.Resolved = true ∧
      (FlaskGui.messageListener data d).2.bubbleHas "show" = false ∧
      (FlaskGui.messageListener data d).2.bubbleHas "listening" = false ∧
      (FlaskGui.messageListener data d).2.bubbleHas "transcribing" = false ∧
      (FlaskGui.messageListener data d).2.waveformStopped = true ∧
      (FlaskGui.messageListener data d).2.status = some "" ∧
      (FlaskGui.messageListener data d).2.view = idleView := by
  rw [flask_listener_reset hty]
  obtain ⟨_ | s, _ | w, _ | b⟩ := d <;> simp [Document.Resolved] at hd
  simp [block, FlaskGui.resetBubble, statusSetTextContent, wfClassListAdd, wfSetOpacity,
    wfSetAnimation, waveformUpdate, bubbleClassListRemove, bubbleUpdate, classListAdd,
    classListRemove, mem_tokenAdd, mem_tokenRemove, Document.bubbleHas,
    Document.waveformStopped, Document.waveformHidden, Document.view, idleView,
    Document.Resolved]

theorem app_transcribing_post (d : Document) (data : JSValue) (hd : d.Resolved = true)
    (hty : messageType data = .ok (.string "transcribing")) :
    (App.messageListener data d).2.Resolved = true ∧
      (App.messageListener data d).2.bubble = d.bubble ∧
      (App.messageListener data d).2.waveformStopped = true ∧
      (App.messageListener data d).2.status = some "Transcribing…" := by
  rw [app_listener_transcribing hty]
  obtain ⟨_ | s, _ | w, _ | b⟩ := d <;> simp [Document.Resolved] at hd
  simp [block, App.setStatus, App.stopWaveform, statusSetTextContent, wfClassListAdd,
    wfSetAnimation, waveformUpdate, classListAdd, Document.waveformStopped, Document.Resolved]

theorem app_reset_post (d : Document) (data : JSValue) (hd : d.Resolved = true)
    (hs : d.bubbleHas "show" = false)
    (hty : messageType data = .ok (.string "reset")) :
    (App.messageListener data d).2.Resolved = true ∧
      (App.messageListener data d).2.bubble = d.bubble ∧
      (App.messageListener data d).2.waveformStopped = true ∧
      (App.messageListener data d).2.status = some "" ∧
      (App.messageListener data d).2.waveformHidden = true ∧
      (App.messageListener data d).2.waveform.map (fun w => w.opacity) = some "1" := by
  rw [app_listener_reset hty]
  obtain ⟨_ | s, _ | w, _ | b⟩ := d <;> simp [Document.Resolved] at hd
  simp only [Document.bubbleHas, decide_eq_false_iff_not] at hs
  simp [block, App.resetBubble, statusSetTextContent, wfClassListAdd, wfSetOpacity,
    wfSetAnimation, waveformUpdate, bubbleClassListRemove, bubbleUpdate, classListAdd,
    classListRemove, mem_tokenAdd, tokenRemove_of_not_mem hs, Document.waveformStopped,
    Document.waveformHidden, Document.Resolved]

/-- The states the full-featured listener moves between when it starts from Idle:
the Idle attributes or the Transcribing attributes, on a page whose elements
exist. -/
theorem flask_idle_or_transcribing_step (m : JSValue) (d : Document)
    (hd : d.Resolved = true ∧
      ((d.bubbleHas "show" = false ∧ d.bubbleHas "listening" = false ∧
          d.bubbleHas "transcribing" = false ∧ d.waveformStopped = true ∧
          d.status = some "") ∨
        (d.bubbleHas "show" = true ∧ d.bubbleHas "listening" = false ∧
          d.bubbleHas "transcribing" = true ∧ d.waveformStopped = true ∧
          d.status = some "Transcribing…"))) :
    (FlaskGui.messageListener m d).2.Resolved = true ∧
      (((FlaskGui.messageListener m d).2.bubbleHas "show" = false ∧
          (FlaskGui.messageListener m d).2.bubbleHas "listening" = false ∧
          (FlaskGui.messageListener m d).2.bubbleHas "transcribing" = false ∧
          (FlaskGui.messageListener m d).2.waveformStopped = true ∧
          (FlaskGui.messageListener m d).2.status = some "") ∨
        ((FlaskGui.messageListener m d).2.bubbleHas "show" = true ∧
          (FlaskGui.messageListener m d).2.bubbleHas "listening" = false ∧
          (FlaskGui.messageListener m d).2.bubbleHas "transcribing" = true ∧
          (FlaskGui.messageListener m d).2.waveformStopped = true ∧
          (FlaskGui.messageListener m d).2.status = some "Transcribing…")) := by
  rcases message_cases m with h | h | h
  · obtain ⟨a, b, c, e, f, g⟩ := flask_transcribing_post d m hd.1 h
    exact ⟨a, Or.inr ⟨b, c, e, f, g⟩⟩
  · obtain ⟨a, b, c, e, f, g, _⟩ := flask_reset_post d m hd.1 h
    exact ⟨a, Or.inl ⟨b, c, e, f, g⟩⟩
  · rw [flask_listener_unrecognised h]
    exact hd

theorem app_idle_or_transcribing_step (cl : Option (List String)) (m : JSValue) (d : Document)
    (hd : d.Resolved = true ∧ d.bubbleHas "show" = false ∧ d.bubble = cl ∧
      d.waveformStopped = true ∧ (d.status = some "" ∨ d.status = some "Transcribing…")) :
    (App.messageListener m d).2.Resolved = true ∧
      (App.messageListener m d).2.bubbleHas "show" = false ∧
      (App.messageListener m d).2.bubble = cl ∧
      (App.messageListener m d).2.waveformStopped = true ∧
      ((App.messageListener m d).2.status = some "" ∨
        (App.messageListener m d).2.status = some "Transcribing…") := by
  obtain ⟨h1, h2, h3, h4, h5⟩ := hd
  have hb : ∀ e : Document, e.bubble = d.bubble → e.bubbleHas "show" = false := by
    intro e he
    simpa [Document.bubbleHas, he] using h2
  rcases message_cases m with h | h | h
  · obtain ⟨a, b, c, e⟩ := app_transcribing_post d m h1 h
    exact ⟨a, hb _ b, b.trans h3, c, Or.inr e⟩
  · obtain ⟨a, b, c, e, _⟩ := app_reset_post d m h1 h2 h
    exact ⟨a, hb _ b, b.trans h3, c, Or.inl e⟩
  · rw [app_listener_unrecognised h]
    exact ⟨h1, h2, h3, h4, h5⟩

theorem initialIdle_iff (d : Document) :
    d.InitialIdle = true ↔
      d.Resolved = true ∧ d.bubbleHas "show" = false ∧ d.bubbleHas "listening" = false ∧
        d.bubbleHas "transcribing" = false ∧ d.status = some "" ∧ d.waveformStopped = true := by
  simp [Document.InitialIdle, and_assoc]

/-- C1, counterexample: in the reduced variant, after the single message
`{ type: "transcribing" }` from the initial Idle page, the status text is
`"Transcribing…"` while the bubble is not shown, so the requirements of no mode
are met and the invariants fail. -/
theorem C1_reduced_breaks_invariants :
    idlePage.InitialIdle = true ∧
      (∀ m : Mode,
        (run App.messageListener [transcribingMsg] idlePage).modeRequirements m = false) ∧
      ¬ (run App.messageListener [transcribingMsg] idlePage).Invariants := by
  have hreq : ∀ m : Mode,
      (run App.messageListener [transcribingMsg] idlePage).modeRequirements m = false := by
    intro m
    cases m <;> decide
  refine ⟨by decide, hreq, ?_⟩
  rintro ⟨⟨m, hm, _⟩, hall⟩
  have := hall m hm
  rw [hreq m] at this
  exact Bool.noConfusion this

/-- C1, amended: start from an initial Idle page and handle any finite sequence of
messages.  In the full-featured variant the state after each step satisfies the
invariants (exactly one mode holds, read off the bubble's `listening` and
`transcribing` treatments, and the requirements of that mode are met).  In the
reduced variant the listener never shows the bubble: after each step the bubble's
class tokens are those of the initial state, every waveform animation is stopped,
and the status text is `""` or `"Transcribing…"`. -/
theorem C1_invariants_after_each_step (d0 : Document) (ms : List JSValue) (k : Nat)
    (h0 : d0.InitialIdle = true) :
    (run FlaskGui.messageListener (ms.take k) d0).Invariants ∧
    ((run App.messageListener (ms.take k) d0).bubble = d0.bubble ∧
      (run App.messageListener (ms.take k) d0).bubbleHas "show" = false ∧
      (run App.messageListener (ms.take k) d0).waveformStopped = true ∧
      ((run App.messageListener (ms.take k) d0).status = some "" ∨
        (run App.messageListener (ms.take k) d0).status = some "Transcribing…")) := by
  obtain ⟨hr, hs, hl, ht, htext, hw⟩ := (initialIdle_iff d0).1 h0
  constructor
  · have h := run_invariant FlaskGui.messageListener _
      (fun m d hd => flask_idle_or_transcribing_step m d hd) (ms.take k) d0
      ⟨hr, Or.inl ⟨hs, hl, ht, hw, htext⟩⟩
    rcases h.2 with ⟨a, b, c, e, f⟩ | ⟨a, b, c, e, f⟩
    · exact invariants_of_idle _ a b c e f
    · exact invariants_of_transcribing _ a b c e f
  · have h := run_invariant App.messageListener _
      (fun m d hd => app_idle_or_transcribing_step d0.bubble m d hd) (ms.take k) d0
      ⟨hr, hs, rfl, hw, Or.inl htext⟩
    exact ⟨h.2.2.1, h.2.1, h.2.2.2.1, h.2.2.2.2⟩

/-- C1, the amended statement after the first two of the messages transcribing,
bogus, reset. -/
theorem C1_invariants_after_each_step_witness :
    (run FlaskGui.messageListener ([transcribingMsg, bogusMsg, resetMsg].take 2)
        idlePage).Invariants ∧
    ((run App.messageListener ([transcribingMsg, bogusMsg, resetMsg].take 2) idlePage).bubble
        = idlePage.bubble ∧
      (run App.messageListener ([transcribingMsg, bogusMsg, resetMsg].take 2)
        idlePage).bubbleHas "show" = false ∧
      (run App.messageListener ([transcribingMsg, bogusMsg, resetMsg].take 2)
        idlePage).waveformStopped = true ∧
      ((run App.messageListener ([transcribingMsg, bogusMsg, resetMsg].take 2) idlePage).status
          = some "" ∨
        (run App.messageListener ([transcribingMsg, bogusMsg, resetMsg].take 2) idlePage).status
          = some "Transcribing…")) :=
  C1_invariants_after_each_step idlePage [transcribingMsg, bogusMsg, resetMsg] 2 (by decide)

/-- C8, counterexample: in the reduced variant the sequence reset, transcribing
from the initial Idle page ends with the bubble not shown. -/
theorem C8_reduced_reset_transcribing_not_visible :
    idlePage.InitialIdle = true ∧
      (run App.messageListener [resetMsg, transcribingMsg] idlePage).bubbleHas "show" = false ∧
      (run App.messageListener [resetMsg, transcribingMsg] idlePage).status
        = some "Transcribing…" :=
  ⟨by decide, by decide, by decide⟩

/-- C8, amended: start from an initial Idle page, let `t` be a message of type
`"transcribing"`, `r` one of type `"reset"`, and `u1`, `u2`, `u3` runs of unrecognised
messages.  In both variants the sequence `u1, t, u2, r, u3` ends in the same
document as `t, r`, whose view is the Idle view, and `u1, r, u2, t, u3` ends in the
same document as `r, t`, with every animation stopped and status text
`"Transcribing…"`.  In the full-featured variant that last state has the bubble
shown with the `transcribing` treatment; in the reduced variant the bubble is
still not shown. -/
theorem C8_order_tolerance (d0 : Document) (t r : JSValue) (u1 u2 u3 : List JSValue)
    (h0 : d0.InitialIdle = true)
    (ht : messageType t = .ok (.string "transcribing"))
    (hr : messageType r = .ok (.string "reset"))
    (h1 : ∀ u ∈ u1, Unrecognised u) (h2 : ∀ u ∈ u2, Unrecognised u)
    (h3 : ∀ u ∈ u3, Unrecognised u) :
    (run FlaskGui.messageListener (u1 ++ [t] ++ u2 ++ [r] ++ u3) d0
        = run FlaskGui.messageListener [t, r] d0 ∧
      (run FlaskGui.messageListener [t, r] d0).view = idleView ∧
      run FlaskGui.messageListener (u1 ++ [r] ++ u2 ++ [t] ++ u3) d0
        = run FlaskGui.messageListener [r, t] d0 ∧
      (run FlaskGui.messageListener [r, t] d0).bubbleHas "show" = true ∧
      (run FlaskGui.messageListener [r, t] d0).inMode .Transcribing = true ∧
      (run FlaskGui.messageListener [r, t] d0).waveformStopped = true ∧
      (run FlaskGui.messageListener [r, t] d0).status = some "Transcribing…") ∧
    (run App.messageListener (u1 ++ [t] ++ u2 ++ [r] ++ u3) d0
        = run App.messageListener [t, r] d0 ∧
      (run App.messageListener [t, r] d0).view = idleView ∧
      run App.messageListener (u1 ++ [r] ++ u2 ++ [t] ++ u3) d0
        = run App.messageListener [r, t] d0 ∧
      (run App.messageListener [r, t] d0).bubbleHas "show" = false ∧
      (run App.messageListener [r, t] d0).waveformStopped = true ∧
      (run App.messageListener [r, t] d0).status = some "Transcribing…") := by
  obtain ⟨hres, hs, hl, htr, htext, hw⟩ := (initialIdle_iff d0).1 h0
  have hshow : ∀ e : Document, e.bubble = d0.bubble →
      e.bubbleHas "show" = false ∧ e.bubbleHas "listening" = false ∧
        e.bubbleHas "transcribing" = false := by
    intro e he
    simp only [Document.bubbleHas, he] at hs hl htr ⊢
    exact ⟨hs, hl, htr⟩
  refine ⟨⟨?_, ?_, ?_, ?_, ?_, ?_, ?_⟩, ⟨?_, ?_, ?_, ?_, ?_, ?_⟩⟩
  · simp [run_append, run, flask_run_unrecognised _ h1, flask_run_unrecognised _ h2,
      flask_run_unrecognised _ h3]
  · have a := flask_transcribing_post d0 t hres ht
    exact (flask_reset_post _ r a.1 hr).2.2.2.2.2.2
  · simp [run_append, run, flask_run_unrecognised _ h1, flask_run_unrecognised _ h2,
      flask_run_unrecognised _ h3]
  · have a := flask_reset_post d0 r hres hr
    exact (flask_transcribing_post _ t a.1 ht).2.1
  · have a := flask_reset_post d0 r hres hr
    simpa [Document.inMode] using (flask_transcribing_post _ t a.1 ht).2.2.2.1
  · have a := flask_reset_post d0 r hres hr
    exact (flask_transcribing_post _ t a.1 ht).2.2.2.2.1
  · have a := flask_reset_post d0 r hres hr
    exact (flask_transcribing_post _ t a.1 ht).2.2.2.2.2
  · simp [run_append, run, app_run_unrecognised _ h1, app_run_unrecognised _ h2,
      app_run_unrecognised _ h3]
  · obtain ⟨a1, a2, _, _⟩ := app_transcribing_post d0 t hres ht
    obtain ⟨_, b2, b3, b4, b5, b6⟩ := app_reset_post _ r a1 (hshow _ a2).1 hr
    obtain ⟨c1, c2, c3⟩ := hshow _ (b2.trans a2)
    simp only [run]
    simp [Document.view, idleView, c1, c2, c3, b3, b4, b5, b6]
  · simp [run_append, run, app_run_unrecognised _ h1, app_run_unrecognised _ h2,
      app_run_unrecognised _ h3]
  · obtain ⟨a1, a2, _, _⟩ := app_reset_post d0 r hres hs hr
    obtain ⟨_, b2, _, _⟩ := app_transcribing_post _ t a1 ht
    exact (hshow _ (b2.trans a2)).1
  · obtain ⟨a1, _, _, _⟩ := app_reset_post d0 r hres hs hr
    exact (app_transcribing_post _ t a1 ht).2.2.1
  · obtain ⟨a1, _, _, _⟩ := app_reset_post d0 r hres hs hr
    exact (app_transcribing_post _ t a1 ht).2.2.2

/-- C8, the amended statement at the initial Idle page with the noise
`{ type: "bogus" }` before the first notification and `null` between the two. -/
theorem C8_order_tolerance_witness :
    (run FlaskGui.messageListener ([bogusMsg] ++ [transcribingMsg] ++ [.null] ++ [resetMsg] ++ [])
          idlePage
        = run FlaskGui.messageListener [transcribingMsg, resetMsg] idlePage ∧
      (run FlaskGui.messageListener [transcribingMsg, resetMsg] idlePage).view = idleView ∧
      run FlaskGui.messageListener ([bogusMsg] ++ [resetMsg] ++ [.null] ++ [transcribingMsg] ++ [])
          idlePage
        = run FlaskGui.messageListener [resetMsg, transcribingMsg] idlePage ∧
      (run FlaskGui.messageListener [resetMsg, transcribingMsg] idlePage).bubbleHas "show"
        = true ∧
      (run FlaskGui.messageListener [resetMsg, transcribingMsg] idlePage).inMode .Transcribing
        = true ∧
      (run FlaskGui.messageListener [resetMsg, transcribingMsg] idlePage).waveformStopped
        = true ∧
      (run FlaskGui.messageListener [resetMsg, transcribingMsg] idlePage).status
        = some "Transcribing…") ∧
    (run App.messageListener ([bogusMsg] ++ [transcribingMsg] ++ [.null] ++ [resetMsg] ++ [])
          idlePage
        = run App.messageListener [transcribingMsg, resetMsg] idlePage ∧
      (run App.messageListener [transcribingMsg, resetMsg] idlePage).view = idleView ∧
      run App.messageListener ([bogusMsg] ++ [resetMsg] ++ [.null] ++ [transcribingMsg] ++ [])
          idlePage
        = run App.messageListener [resetMsg, transcribingMsg] idlePage ∧
      (run App.messageListener [resetMsg, transcribingMsg] idlePage).bubbleHas "show" = false ∧
      (run App.messageListener [resetMsg, transcribingMsg] idlePage).waveformStopped = true ∧
      (run App.messageListener [resetMsg, transcribingMsg] idlePage).status
        = some "Transcribing…") :=
  C8_order_tolerance idlePage transcribingMsg resetMsg [bogusMsg] [.null] []
    (by decide) rfl rfl
    (fun u hu => by
      rw [List.mem_singleton] at hu
      subst hu
      exact unrecognised_bogus)
    (fun u hu => by
      rw [List.mem_singleton] at hu
      subst hu
      exact unrecognised_null)
    (fun u hu => by cases hu)

/-! ## Missing elements -/

/-- C9, counterexample: on a page without `#bubble`, loading the full-featured
script ends normally with the listener registered, and a `transcribing` message
delivered to the listener sets the status text and stops the waveform before it
throws at the first use of the `null` bubble handle. -/
theorem C9_listener_runs_with_missing_bubble :
    pageWithoutBubble.Resolved = false ∧
      (FlaskGui.loadScript pageWithoutBubble).1 = .normal ∧
      (FlaskGui.loadScript pageWithoutBubble).2.listenerRegistered = true ∧
      dispatch FlaskGui.messageListener (FlaskGui.loadScript pageWithoutBubble).2
          transcribingMsg =
        (.typeError,
          { doc := { status := some "Transcribing…"
                     waveform := some { classList := ["waveform", "hidden"], opacity := ""
                                        divs := ["none", "none"] }
                     bubble := none }
            statusAccess := .cached true
            bubbleAccess := .cached false
            listenerRegistered := true }) :=
  ⟨by decide, by decide, by decide, by decide⟩

set_option maxHeartbeats 4000000 in
/-- C9, amended: let `d` be the page when the script loads, `page` the page when a
message arrives (`d` with the elements of `extra` the host has added since), and
`rtF`, `rtA` the loaded full-featured and reduced scripts on that page.  Loading
never fails and always registers the listener; there is no check at load time.
An unrecognised message is ignored without error.  A message of type
`"transcribing"` or `"reset"` ends normally exactly when every handle its branch
uses is non-null: `status` (both variants) and `bubble` (full-featured variant) as
found at load, `.waveform` (and `#bubble` in the reduced variant) as found when the
message arrives.  Otherwise it ends in a `TypeError` raised at the first use of a
`null` handle, and the statements before that use have taken effect on the
page. -/
theorem C9_missing_element_behaviour (d extra page : Document) (rtF rtA : Runtime)
    (t r u : JSValue)
    (hpage : page = d.gains extra)
    (hF : rtF = (FlaskGui.loadScript d).2.pageGains extra)
    (hA : rtA = (App.loadScript d).2.pageGains extra)
    (ht : messageType t = .ok (.string "transcribing"))
    (hr : messageType r = .ok (.string "reset"))
    (hu : Unrecognised u) :
    ((FlaskGui.loadScript d).1 = .normal ∧
      (FlaskGui.loadScript d).2.listenerRegistered = true ∧
      (FlaskGui.loadScript d).2.doc = d ∧
      (App.loadScript d).1 = .normal ∧
      (App.loadScript d).2.listenerRegistered = true ∧
      (App.loadScript d).2.doc = d) ∧
    (dispatch FlaskGui.messageListener rtF u = (.normal, rtF) ∧
      dispatch App.messageListener rtA u = (.normal, rtA)) ∧
    -- full-featured variant, type "transcribing": status, waveform, bubble
    (((dispatch FlaskGui.messageListener rtF t).1 = .normal ↔
        (d.status.isSome = true ∧ page.waveform.isSome = true ∧ d.bubble.isSome = true)) ∧
      (d.status = none →
        dispatch FlaskGui.messageListener rtF t = (.typeError, rtF)) ∧
      (d.status.isSome = true → page.waveform = none →
        dispatch FlaskGui.messageListener rtF t =
          (.typeError, { rtF with doc := { page with status := some "Transcribing…" } })) ∧
      (∀ w, d.status.isSome = true → page.waveform = some w → d.bubble = none →
        dispatch FlaskGui.messageListener rtF t =
          (.typeError,
            { rtF with doc :=
                { page with
                    status := some "Transcribing…"
                    waveform := some { w with classList := tokenAdd w.classList "hidden"
                                              divs := w.divs.map (fun _ => "none") } } }))) ∧
    -- full-featured variant, type "reset": waveform, status, bubble
    (((dispatch FlaskGui.messageListener rtF r).1 = .normal ↔
        (d.status.isSome = true ∧ page.waveform.isSome = true ∧ d.bubble.isSome = true)) ∧
      (page.waveform = none →
        dispatch FlaskGui.messageListener rtF r = (.typeError, rtF)) ∧
      (∀ w, page.waveform = some w → d.status = none →
        dispatch FlaskGui.messageListener rtF r =
          (.typeError,
            { rtF with doc :=
                { page with
                    waveform := some { classList := tokenAdd w.classList "hidden"
                                       opacity := "1"
                                       divs := w.divs.map (fun _ => "none") } } })) ∧
      (∀ w, page.waveform = some w → d.status.isSome = true → d.bubble = none →
        dispatch FlaskGui.messageListener rtF r =
          (.typeError,
            { rtF with doc :=
                { page with
                    status := some ""
                    waveform := some { classList := tokenAdd w.classList "hidden"
                                       opacity := "1"
                                       divs := w.divs.map (fun _ => "none") } } }))) ∧
    -- reduced variant, type "transcribing": status, waveform
    (((dispatch App.messageListener rtA t).1 = .normal ↔
        (d.status.isSome = true ∧ page.waveform.isSome = true)) ∧
      (d.status = none →
        dispatch App.messageListener rtA t = (.typeError, rtA)) ∧
      (d.status.isSome = true → page.waveform = none →
        dispatch App.messageListener rtA t =
          (.typeError, { rtA with doc := { page with status := some "Transcribing…" } }))) ∧
    -- reduced variant, type "reset": waveform, status, bubble
    (((dispatch App.messageListener rtA r).1 = .normal ↔
        (d.status.isSome = true ∧ page.waveform.isSome = true ∧
          page.bubble.isSome = true)) ∧
      (page.waveform = none →
        dispatch App.messageListener rtA r = (.typeError, rtA)) ∧
      (∀ w, page.waveform = some w → d.status = none →
        dispatch App.messageListener rtA r =
          (.typeError,
            { rtA with doc :=
                { page with
                    waveform := some { classList := tokenAdd w.classList "hidden"
                                       opacity := "1"
                                       divs := w.divs.map (fun _ => "none") } } })) ∧
      (∀ w, page.waveform = some w → d.status.isSome = true → page.bubble = none →
        dispatch App.messageListener rtA r =
          (.typeError,
            { rtA with doc :=
                { page with
                    status := some ""
                    waveform := some { classList := tokenAdd w.classList "hidden"
                                       opacity := "1"
                                       divs := w.divs.map (fun _ => "none") } } }))) := by
  subst hpage hF hA
  refine ⟨⟨rfl, rfl, rfl, rfl, rfl, rfl⟩, ⟨?_, ?_⟩, ?_, ?_, ?_, ?_⟩
  · simp [dispatch, FlaskGui.loadScript, Runtime.pageGains, Runtime.commit, Runtime.seen,
      flask_listener_unrecognised hu]
    obtain ⟨_ | s, _ | w, _ | b⟩ := d <;> obtain ⟨_ | s1, _ | w1, _ | b1⟩ := extra <;>
      simp [Document.gains, Access.see, Access.writeBack]
  · simp [dispatch, App.loadScript, Runtime.pageGains, Runtime.commit, Runtime.seen,
      app_listener_unrecognised hu]
    obtain ⟨_ | s, _ | w, _ | b⟩ := d <;> obtain ⟨_ | s1, _ | w1, _ | b1⟩ := extra <;>
      simp [Document.gains, Access.see, Access.writeBack]
  · simp only [dispatch, FlaskGui.loadScript, Runtime.pageGains, if_true,
      flask_listener_transcribing ht]
    obtain ⟨_ | s, _ | w, _ | b⟩ := d <;> obtain ⟨_ | s1, _ | w1, _ | b1⟩ := extra <;>
      simp [Document.gains, Access.see, Access.writeBack, Runtime.commit, Runtime.seen, block,
        FlaskGui.setStatus, FlaskGui.stopWaveform, statusSetTextContent, wfClassListAdd,
        wfSetAnimation, waveformUpdate, bubbleClassListAdd, bubbleClassListRemove,
        bubbleUpdate, classListAdd]
  · simp only [dispatch, FlaskGui.loadScript, Runtime.pageGains, if_true,
      flask_listener_reset hr]
    obtain ⟨_ | s, _ | w, _ | b⟩ := d <;> obtain ⟨_ | s1, _ | w1, _ | b1⟩ := extra <;>
      simp [Document.gains, Access.see, Access.writeBack, Runtime.commit, Runtime.seen, block,
        FlaskGui.resetBubble, statusSetTextContent, wfClassListAdd, wfSetOpacity,
        wfSetAnimation, waveformUpdate, bubbleClassListRemove, bubbleUpdate, classListAdd]
  · simp only [dispatch, App.loadScript, Runtime.pageGains, if_true,
      app_listener_transcribing ht]
    obtain ⟨_ | s, _ | w, _ | b⟩ := d <;> obtain ⟨_ | s1, _ | w1, _ | b1⟩ := extra <;>
      simp [Document.gains, Access.see, Access.writeBack, Runtime.commit, Runtime.seen, block,
        App.setStatus, App.stopWaveform, statusSetTextContent, wfClassListAdd,
        wfSetAnimation, waveformUpdate, classListAdd]
  · simp only [dispatch, App.loadScript, Runtime.pageGains, if_true,
      app_listener_reset hr]
    obtain ⟨_ | s, _ | w, _ | b⟩ := d <;> obtain ⟨_ | s1, _ | w1, _ | b1⟩ := extra <;>
      simp [Document.gains, Access.see, Access.writeBack, Runtime.commit, Runtime.seen, block,
        App.resetBubble, statusSetTextContent, wfClassListAdd, wfSetOpacity,
        wfSetAnimation, waveformUpdate, bubbleClassListRemove, bubbleUpdate, classListAdd,
        classListRemove]

/-- C9, the amended statement on a page that has no `#bubble` when the
full-featured script loads and gains one afterwards: the cached handle is still
`null`, so a `transcribing` message sets the status text and stops the waveform
and then ends in a `TypeError`. -/
theorem C9_missing_element_behaviour_witness :
    ((dispatch FlaskGui.messageListener
          ((FlaskGui.loadScript pageWithoutBubble).2.pageGains bubbleOnly) transcribingMsg).1
        = .normal ↔
      (pageWithoutBubble.status.isSome = true ∧
        (pageWithoutBubble.gains bubbleOnly).waveform.isSome = true ∧
        pageWithoutBubble.bubble.isSome = true)) ∧
    dispatch FlaskGui.messageListener
        ((FlaskGui.loadScript pageWithoutBubble).2.pageGains bubbleOnly) transcribingMsg =
      (.typeError,
        { doc := { status := some "Transcribing…"
                   waveform := some { classList := ["waveform", "hidden"], opacity := ""
                                      divs := ["none", "none"] }
                   bubble := some ["bubble"] }
          statusAccess := .cached true
          bubbleAccess := .cached false
          listenerRegistered := true }) :=
  ⟨(C9_missing_element_behaviour pageWithoutBubble bubbleOnly
      (pageWithoutBubble.gains bubbleOnly)
      ((FlaskGui.loadScript pageWithoutBubble).2.pageGains bubbleOnly)
      ((App.loadScript pageWithoutBubble).2.pageGains bubbleOnly)
      transcribingMsg resetMsg bogusMsg rfl rfl rfl rfl rfl unrecognised_bogus).2.2.1.1,
   (C9_missing_element_behaviour pageWithoutBubble bubbleOnly
      (pageWithoutBubble.gains bubbleOnly)
      ((FlaskGui.loadScript pageWithoutBubble).2.pageGains bubbleOnly)
      ((App.loadScript pageWithoutBubble).2.pageGains bubbleOnly)
      transcribingMsg resetMsg bogusMsg rfl rfl rfl rfl rfl unrecognised_bogus).2.2.1.2.2.2
      { classList := ["waveform"], opacity := "", divs := ["none", "none"] } rfl rfl rfl⟩

/-! ## Treatments of the bubble under all operations -/

theorem flask_step_treatments (o : Op) (d : Document)
    (hd : ¬ (d.bubbleHas "listening" = true ∧ d.bubbleHas "transcribing" = true) ∧
      ((d.bubbleHas "listening" = true ∨ d.bubbleHas "transcribing" = true) →
        d.bubbleHas "show" = true)) :
    ¬ ((FlaskGui.step o d).2.bubbleHas "listening" = true ∧
        (FlaskGui.step o d).2.bubbleHas "transcribing" = true) ∧
      (((FlaskGui.step o d).2.bubbleHas "listening" = true ∨
          (FlaskGui.step o d).2.bubbleHas "transcribing" = true) →
        (FlaskGui.step o d).2.bubbleHas "show" = true) := by
  cases o with
  | startWaveform =>
    obtain ⟨_ | s, _ | w, _ | b⟩ := d <;>
      simp_all [FlaskGui.step, block, FlaskGui.startWaveform, FlaskGui.setStatus,
        statusSetTextContent, wfClassListRemove, wfSetOpacity, wfSetAnimation, waveformUpdate,
        bubbleClassListAdd, bubbleClassListRemove, bubbleUpdate, classListAdd, classListRemove,
        mem_tokenAdd, mem_tokenRemove, Document.bubbleHas]
  | stopWaveform =>
    obtain ⟨_ | s, _ | w, _ | b⟩ := d <;>
      simp_all [FlaskGui.step, block, FlaskGui.stopWaveform, wfClassListAdd, wfSetAnimation,
        waveformUpdate, bubbleClassListRemove, bubbleUpdate, classListAdd, classListRemove,
        mem_tokenAdd, mem_tokenRemove, Document.bubbleHas]
  | resetBubble =>
    obtain ⟨_ | s, _ | w, _ | b⟩ := d <;>
      simp_all [FlaskGui.step, block, FlaskGui.resetBubble, statusSetTextContent, wfClassListAdd,
        wfSetOpacity, wfSetAnimation, waveformUpdate, bubbleClassListRemove, bubbleUpdate,
        classListAdd, classListRemove, mem_tokenAdd, mem_tokenRemove, Document.bubbleHas]
  | message data =>
    rcases message_cases data with h | h | h
    · simp only [FlaskGui.step, flask_listener_transcribing h]
      obtain ⟨_ | s, _ | w, _ | b⟩ := d <;>
        simp_all [block, FlaskGui.setStatus, FlaskGui.stopWaveform, statusSetTextContent,
          wfClassListAdd, wfSetAnimation, waveformUpdate, bubbleClassListAdd,
          bubbleClassListRemove, bubbleUpdate, classListAdd, classListRemove, mem_tokenAdd,
          mem_tokenRemove, Document.bubbleHas]
    · simp only [FlaskGui.step, flask_listener_reset h]
      obtain ⟨_ | s, _ | w, _ | b⟩ := d <;>
        simp_all [block, FlaskGui.resetBubble, statusSetTextContent, wfClassListAdd,
          wfSetOpacity, wfSetAnimation, waveformUpdate, bubbleClassListRemove, bubbleUpdate,
          classListAdd, classListRemove, mem_tokenAdd, mem_tokenRemove, Document.bubbleHas]
    · simp only [FlaskGui.step, flask_listener_unrecognised h]
      exact hd

/-- C10: in the full-featured variant, start from a bubble that carries neither
`listening` nor `transcribing` (in particular one with none of `show`, `listening`,
`transcribing`) and apply any finite sequence of `startWaveform`, `stopWaveform`,
`resetBubble` and message deliveries (any message; elements other than the bubble
may even be missing).  The bubble then never carries `listening` and `transcribing`
together, and whenever it carries one of them it carries `show`. -/
theorem C10_treatments_consistent (d : Document) (ops : List Op)
    (hl : d.bubbleHas "listening" = false)
    (ht : d.bubbleHas "transcribing" = false) :
    ¬ ((FlaskGui.runOps ops d).bubbleHas "listening" = true ∧
        (FlaskGui.runOps ops d).bubbleHas "transcribing" = true) ∧
      (((FlaskGui.runOps ops d).bubbleHas "listening" = true ∨
          (FlaskGui.runOps ops d).bubbleHas "transcribing" = true) →
        (FlaskGui.runOps ops d).bubbleHas "show" = true) := by
  have base : ¬ (d.bubbleHas "listening" = true ∧ d.bubbleHas "transcribing" = true) ∧
      ((d.bubbleHas "listening" = true ∨ d.bubbleHas "transcribing" = true) →
        d.bubbleHas "show" = true) := by
    simp [hl, ht]
  clear hl ht
  induction ops generalizing d with
  | nil => exact base
  | cons o os ih => exact ih _ (flask_step_treatments o d base)

/-- C10 at the initial Idle page for the sequence `startWaveform`, the message
`{ type: "transcribing" }`, `stopWaveform`, `startWaveform`. -/
theorem C10_treatments_consistent_witness :
    ¬ ((FlaskGui.runOps [.startWaveform, .message transcribingMsg, .stopWaveform,
            .startWaveform] idlePage).bubbleHas "listening" = true ∧
        (FlaskGui.runOps [.startWaveform, .message transcribingMsg, .stopWaveform,
            .startWaveform] idlePage).bubbleHas "transcribing" = true) ∧
      (((FlaskGui.runOps [.startWaveform, .message transcribingMsg, .stopWaveform,
            .startWaveform] idlePage).bubbleHas "listening" = true ∨
          (FlaskGui.runOps [.startWaveform, .message transcribingMsg, .stopWaveform,
            .startWaveform] idlePage).bubbleHas "transcribing" = true) →
        (FlaskGui.runOps [.startWaveform, .message transcribingMsg, .stopWaveform,
            .startWaveform] idlePage).bubbleHas "show" = true) :=
  C10_treatments_consistent idlePage
    [.startWaveform, .message transcribingMsg, .stopWaveform, .startWaveform]
    (by decide) (by decide)


end GammaWhisper
